import Mathlib

/-!
Shallow embedding of `lc_agent/knowledge_base.py`, the vector-backed
knowledge retrieval engine (collections, registry, retrieval facade).

Modelling conventions:
* `Document` embeds LangChain documents: `page_content` plus a metadata
  mapping (association list, Python dict in insertion order).
* The FAISS vector store is abstract for the claims under study: it is a list
  of stored documents together with an abstract, fallible nearest-neighbour
  answer `similaritySearchWithScore` (the Python call embeds the query
  internally, so embedding failures and index failures are both one
  `Except.error`).  Distances/scores are exact rationals.
* On-disk persistence (`save_local`) is modelled as a snapshot field
  `saved_docs` of the knowledge base.
* `if kb_name:` in Python is falsy for both `None` and the empty string;
  the embedding keeps that truthiness test explicitly.
-/

namespace KB

/-- LangChain `Document`: text plus metadata mapping. -/
structure Document where
  page_content : String
  metadata : List (String × String)
  deriving DecidableEq, Repr

/-- The FAISS vector store: stored documents plus the fallible
top-k nearest-neighbour answer (query, k ↦ (document, distance) pairs,
nearest first). -/
structure VectorStore where
  docs : List Document
  similaritySearchWithScore : String → Nat → Except String (List (Document × ℚ))

/-- Embeds `FAISS.add_documents`: appends documents to the store. -/
def VectorStore.add_documents (vs : VectorStore) (documents : List Document) : VectorStore :=
  { vs with docs := vs.docs ++ documents }

/-- Embeds `KnowledgeBase`: a named collection, its in-memory vector store and the
persisted on-disk snapshot. -/
structure KnowledgeBase where
  kb_name : String
  vector_store : VectorStore
  saved_docs : List Document

/-- Embeds `KnowledgeBase.save`: persists the vector store to disk synchronously. -/
def KnowledgeBase.save (kb : KnowledgeBase) : KnowledgeBase :=
  { kb with saved_docs := kb.vector_store.docs }

/-- Embeds `KnowledgeBase.add_documents`: early return on empty input, otherwise
add to the vector store and save. -/
def KnowledgeBase.add_documents (kb : KnowledgeBase) (documents : List Document) :
    KnowledgeBase :=
  if documents.isEmpty then kb
  else { kb with vector_store := kb.vector_store.add_documents documents }.save

/-- Embeds `KnowledgeBase.add_texts`: early return on empty input; default
metadatas is `[{}] * len(texts)`; builds one `Document` per `zip` pair and
delegates to `add_documents`. -/
def KnowledgeBase.add_texts (kb : KnowledgeBase) (texts : List String)
    (metadatas : Option (List (List (String × String)))) : KnowledgeBase :=
  if texts.isEmpty then kb
  else
    let ms := match metadatas with
      | none => List.replicate texts.length ([] : List (String × String))
      | some ms => ms
    let documents := (texts.zip ms).map
      (fun p => { page_content := p.1, metadata := p.2 : Document })
    kb.add_documents documents

/-- Embeds `KnowledgeBase.search`: ask the index for the top-k answer inside a
`try`; keep the pairs whose distance is `≤ (1 - score_threshold) * 10`,
in order; on any exception return `[]`. -/
def KnowledgeBase.search (kb : KnowledgeBase) (query : String) (top_k : Nat)
    (score_threshold : ℚ) : List (Document × ℚ) :=
  match kb.vector_store.similaritySearchWithScore query top_k with
  | .ok results => results.filter (fun p => decide (p.2 ≤ (1 - score_threshold) * 10))
  | .error _ => []

/-- Embeds `KnowledgeBaseManager`: registry of named collections (Python dict in
insertion order). -/
structure KnowledgeBaseManager where
  knowledge_bases : List (String × KnowledgeBase)

/-- The `kb_name is None` branch of `search_knowledge`: query every
registered collection, concatenate, sort ascending by distance (Python
`list.sort` is a stable merge sort), truncate to `top_k`. -/
def KnowledgeBaseManager.search_all (m : KnowledgeBaseManager) (query : String)
    (top_k : Nat) (score_threshold : ℚ) : List (Document × ℚ) :=
  let all_results :=
    (m.knowledge_bases.map (fun p => p.2.search query top_k score_threshold)).flatten
  (all_results.mergeSort (fun a b => decide (a.2 ≤ b.2))).take top_k

/-- Embeds `KnowledgeBaseManager.search_knowledge`.  Note `if kb_name:` is Python
truthiness: both `None` and `""` fall to the search-all branch. -/
def KnowledgeBaseManager.search_knowledge (m : KnowledgeBaseManager) (query : String)
    (kb_name : Option String) (top_k : Nat) (score_threshold : ℚ) :
    List (Document × ℚ) :=
  match kb_name with
  | some name =>
    if name = "" then m.search_all query top_k score_threshold
    else
      match m.knowledge_bases.lookup name with
      | some kb => kb.search query top_k score_threshold
      | none => []
  | none => m.search_all query top_k score_threshold

/-- Embeds `get_or_create_kb`, with the `KnowledgeBase(kb_name)` constructor
abstracted as `mk` (its real body performs disk and model I/O). -/
def KnowledgeBaseManager.get_or_create_kb (m : KnowledgeBaseManager) (kb_name : String)
    (mk : String → KnowledgeBase) : KnowledgeBaseManager :=
  match m.knowledge_bases.lookup kb_name with
  | some _ => m
  | none => { knowledge_bases := m.knowledge_bases ++ [(kb_name, mk kb_name)] }

/-- The default collection names created by `_init_default_knowledge_bases`. -/
def default_kbs : List String :=
  ["NameNodeExpert", "DataNodeExpert", "YARNExpert", "HistoryCases", "HadoopDocs"]

/-- Embeds `KnowledgeBaseManager` construction / `_init_default_knowledge_bases`:
eagerly `get_or_create` each default collection. -/
def init_manager (mk : String → KnowledgeBase) : KnowledgeBaseManager :=
  default_kbs.foldl (fun m n => m.get_or_create_kb n mk) ⟨[]⟩

/-- Python `str.lower()` (ASCII case mapping), written structurally over the
character list so that it evaluates; it performs the same per-character
mapping as `String.toLower`. -/
def strLower (s : String) : String :=
  ⟨s.data.map Char.toLower⟩

/-- Python `pat in s` substring test, anchored match at one position. -/
def startsWithChars : List Char → List Char → Bool
  | [], _ => true
  | _ :: _, [] => false
  | a :: pa, b :: sb => a == b && startsWithChars pa sb

/-- Python `pat in s` substring test over all positions. -/
def containsChars (pat : List Char) : List Char → Bool
  | [] => pat.isEmpty
  | c :: rest => startsWithChars pat (c :: rest) || containsChars pat rest

/-- Python `pat in s` on strings. -/
def strContains (s pat : String) : Bool :=
  containsChars pat.data s.data

/-- Embeds `KnowledgeBaseManager.match_knowledge_base`: lower-case the label, then
ordered containment rules with `HistoryCases` as the fallback. -/
def match_knowledge_base (expert_type : String) : String :=
  let e := strLower expert_type
  if strContains e "namenode" || strContains e "nn" then "NameNodeExpert"
  else if strContains e "datanode" || strContains e "dn" then "DataNodeExpert"
  else if strContains e "yarn" then "YARNExpert"
  else "HistoryCases"

/-- The result list computed inside `search_diagnosis_knowledge` before
formatting: resolve `expert_type` to a collection name (or `None` for
"all") and run the registry search. -/
def search_diagnosis_results (m : KnowledgeBaseManager) (query expert_type : String)
    (top_k : Nat) (score_threshold : ℚ) : List (Document × ℚ) :=
  let kb_name : Option String :=
    if strLower expert_type = "all" then none
    else some (match_knowledge_base expert_type)
  m.search_knowledge query kb_name top_k score_threshold

/-- The fixed no-results sentence of `search_diagnosis_knowledge`. -/
def noResultsMsg (query : String) : String :=
  "未找到与 \x27" ++ query ++ "\x27 相关的知识"

/-- Fixed two-decimal rendering of a rational, standing in for Python
`f"{x:.2f}"`. -/
def fmt2 (q : ℚ) : String :=
  let sgn := if q < 0 then "-" else ""
  let n := round (|q| * 100)
  sgn ++ toString (n / 100) ++ "." ++ (if n % 100 < 10 then "0" else "") ++ toString (n % 100)

/-- One loop iteration of the formatting loop in
`search_diagnosis_knowledge`: index header with displayed similarity
`1 - score`, then (guarded by `if doc.metadata:`) the optional source and
desc lines, then the content. -/
def renderResult (idx : Nat) (doc : Document) (score : ℚ) : String :=
  "[知识 " ++ toString idx ++ "] (相似度: " ++ fmt2 (1 - score) ++ ")\n"
    ++ (if doc.metadata.isEmpty then ""
        else
          (match doc.metadata.lookup "source" with
            | some s => "来源: " ++ s ++ "\n"
            | none => "")
          ++ (match doc.metadata.lookup "desc" with
            | some d => "描述: " ++ d ++ "\n"
            | none => ""))
    ++ "内容: " ++ doc.page_content ++ "\n\n"

/-- The `for idx, (doc, score) in enumerate(results, 1)` accumulation. -/
def renderLoop : Nat → List (Document × ℚ) → String
  | _, [] => ""
  | idx, (doc, score) :: rest => renderResult idx doc score ++ renderLoop (idx + 1) rest

/-- Embeds `search_diagnosis_knowledge`, the public facade.  Defaults in Python:
`expert_type="all"`, `top_k=3`, `score_threshold=0.4`. -/
def search_diagnosis_knowledge (m : KnowledgeBaseManager) (query expert_type : String)
    (top_k : Nat) (score_threshold : ℚ) : String :=
  let results := search_diagnosis_results m query expert_type top_k score_threshold
  if results.isEmpty then noResultsMsg query
  else "找到 " ++ toString results.length ++ " 条相关知识：\n\n" ++ renderLoop 1 results

/-- Spec-level description of one rendered result: 1-based index, displayed
similarity `1 - distance` (not clamped), a source line and a desc line
whenever those metadata keys are present, then the raw text. -/
def renderItemSpec (idx : Nat) (doc : Document) (score : ℚ) : String :=
  "[知识 " ++ toString idx ++ "] (相似度: " ++ fmt2 (1 - score) ++ ")\n"
    ++ (match doc.metadata.lookup "source" with
      | some s => "来源: " ++ s ++ "\n"
      | none => "")
    ++ (match doc.metadata.lookup "desc" with
      | some d => "描述: " ++ d ++ "\n"
      | none => "")
    ++ "内容: " ++ doc.page_content ++ "\n\n"

/-- Spec-level description of the non-empty rendering: a count header, then
each result in order with its 1-based index. -/
def renderSpec (results : List (Document × ℚ)) : String :=
  "找到 " ++ toString results.length ++ " 条相关知识：\n\n"
    ++ String.join ((results.enumFrom 1).map (fun p => renderItemSpec p.1 p.2.1 p.2.2))

/-! ### Concrete instances used by witnesses and counterexamples -/

/-- A document carrying both `source` and `desc` metadata. -/
def docA : Document := ⟨"textA", [("source", "S"), ("desc", "D")]⟩

/-- A document with empty metadata. -/
def docB : Document := ⟨"textB", []⟩

/-- A knowledge base whose index answers every query with two hits at
distances 2 and 7. -/
def kbA : KnowledgeBase :=
  ⟨"NameNodeExpert", ⟨[docA, docB], fun _ _ => .ok [(docA, 2), (docB, 7)]⟩, [docA, docB]⟩

/-- A knowledge base whose index always fails. -/
def kbErr : KnowledgeBase :=
  ⟨"HistoryCases", ⟨[], fun _ _ => .error "embedding failure"⟩, []⟩

/-- A registry holding the single collection `kbA`. -/
def mX : KnowledgeBaseManager := ⟨[("NameNodeExpert", kbA)]⟩

/-! ### Claims about `KnowledgeBase.search` -/

/-- C1: when the index answer is `results`, `search` returns exactly the
pairs of `results` whose distance is at most `(1 - score_threshold) * 10`,
as a sublist of `results` (native nearest-first order, no re-sorting). -/
theorem search_filter_spec (kb : KnowledgeBase) (q : String) (k : Nat) (t : ℚ)
    (results : List (Document × ℚ))
    (h : kb.vector_store.similaritySearchWithScore q k = .ok results) :
    kb.search q k t = results.filter (fun p => decide (p.2 ≤ (1 - t) * 10)) ∧
    List.Sublist (kb.search q k t) results ∧
    ∀ p : Document × ℚ, p ∈ kb.search q k t ↔ p ∈ results ∧ p.2 ≤ (1 - t) * 10 := by
  unfold KnowledgeBase.search
  rw [h]
  refine ⟨rfl, List.filter_sublist _, fun p => ?_⟩
  simp [List.mem_filter]

/-- Witness for C1 at a concrete collection: threshold 0.4 keeps distance 2
and drops distance 7. -/
theorem search_filter_spec_witness :
    kbA.search "q" 3 (2/5) = [(docA, 2)] ∧ List.Sublist (kbA.search "q" 3 (2/5)) [(docA, 2), (docB, 7)] := by
  have h := search_filter_spec kbA "q" 3 (2/5) [(docA, 2), (docB, 7)] rfl
  refine ⟨?_, h.2.1⟩
  rw [h.1]
  norm_num [List.filter]

/-- C5: when the index search (or the query embedding inside it) raises,
`search` returns the empty list instead of propagating the exception. -/
theorem search_never_raises (kb : KnowledgeBase) (q : String) (k : Nat) (t : ℚ)
    (e : String) (h : kb.vector_store.similaritySearchWithScore q k = .error e) :
    kb.search q k t = [] := by
  unfold KnowledgeBase.search
  rw [h]

/-- Witness for C5 at a collection whose index always fails. -/
theorem search_never_raises_witness : kbErr.search "NameNode无法启动" 3 (2/5) = [] :=
  search_never_raises kbErr "NameNode无法启动" 3 (2/5) "embedding failure" rfl

/-! ### Claims about `match_knowledge_base` -/

/-- C3: `match_knowledge_base` lower-cases the label and applies ordered
containment rules, first match wins, with `HistoryCases` for every label
matching no rule. -/
theorem match_knowledge_base_rules (l : String) :
    (match_knowledge_base l = "NameNodeExpert" ↔
      (strContains (strLower l) "namenode" || strContains (strLower l) "nn") = true) ∧
    (match_knowledge_base l = "DataNodeExpert" ↔
      ((strContains (strLower l) "namenode" || strContains (strLower l) "nn") = false ∧
        (strContains (strLower l) "datanode" || strContains (strLower l) "dn") = true)) ∧
    (match_knowledge_base l = "YARNExpert" ↔
      ((strContains (strLower l) "namenode" || strContains (strLower l) "nn") = false ∧
        (strContains (strLower l) "datanode" || strContains (strLower l) "dn") = false ∧
        strContains (strLower l) "yarn" = true)) ∧
    (match_knowledge_base l = "HistoryCases" ↔
      ((strContains (strLower l) "namenode" || strContains (strLower l) "nn") = false ∧
        (strContains (strLower l) "datanode" || strContains (strLower l) "dn") = false ∧
        strContains (strLower l) "yarn" = false)) := by
  unfold match_knowledge_base
  cases h1 : (strContains (strLower l) "namenode" || strContains (strLower l) "nn") <;>
    cases h2 : (strContains (strLower l) "datanode" || strContains (strLower l) "dn") <;>
      cases h3 : strContains (strLower l) "yarn" <;>
        simp [h1, h2, h3]

/-! ### Claims about `KnowledgeBaseManager.search_knowledge` with a topic -/

/-- Counterexample to C4 as stated: the empty string is a given topic name
that is not a key of the registry, yet `search_knowledge` falls through to
the search-all branch (Python `if kb_name:` is falsy on `""`) and returns a
non-empty result instead of `[]`. -/
theorem search_knowledge_empty_name_cex :
    List.lookup "" mX.knowledge_bases = none ∧
    mX.search_knowledge "q" (some "") 3 (2/5) = [(docA, 2)] ∧
    mX.search_knowledge "q" (some "") 3 (2/5) ≠ [] := by
  have hsearch : kbA.search "q" 3 (2/5) = [(docA, 2)] := by
    norm_num [kbA, KnowledgeBase.search, List.filter]
  have hall : mX.search_all "q" 3 (2/5) = [(docA, 2)] := by
    unfold KnowledgeBaseManager.search_all
    simp [mX, hsearch]
  have hmain : mX.search_knowledge "q" (some "") 3 (2/5) = [(docA, 2)] := by
    unfold KnowledgeBaseManager.search_knowledge
    simpa using hall
  refine ⟨rfl, hmain, by simp [hmain]⟩

/-- C4 amended: for every *non-empty* topic name that is not a key of the
registered collections, `search_knowledge` returns the empty list and does
not fall back to the search-all path. -/
theorem search_knowledge_unknown_empty (m : KnowledgeBaseManager) (q name : String)
    (k : Nat) (t : ℚ) (h1 : name ≠ "")
    (h2 : List.lookup name m.knowledge_bases = none) :
    m.search_knowledge q (some name) k t = [] := by
  unfold KnowledgeBaseManager.search_knowledge
  simp [h1, h2]

/-- Witness for the amended C4 at a concrete registry and unknown name. -/
theorem search_knowledge_unknown_empty_witness :
    mX.search_knowledge "q" (some "NoSuchTopic") 3 (2/5) = [] :=
  search_knowledge_unknown_empty mX "q" "NoSuchTopic" 3 (2/5) (by decide) rfl

/-! ### Claims about the topic dispatch of the facade -/

/-- C7: the facade uses the registry absent-topic (search every
collection) path exactly when `expert_type` lower-cases to `"all"`; every
other label is first mapped through `match_knowledge_base` and only that
single collection is searched. -/
theorem facade_dispatch (m : KnowledgeBaseManager) (q e : String) (k : Nat) (t : ℚ) :
    (strLower e = "all" →
      search_diagnosis_results m q e k t = m.search_knowledge q none k t) ∧
    (strLower e ≠ "all" →
      search_diagnosis_results m q e k t
        = m.search_knowledge q (some (match_knowledge_base e)) k t) := by
  unfold search_diagnosis_results
  constructor <;> intro h <;> simp [h]

/-- Witness for C7 at the labels `"ALL"` and `"namenode"`. -/
theorem facade_dispatch_witness :
    search_diagnosis_results mX "q" "ALL" 3 (2/5) = mX.search_knowledge "q" none 3 (2/5) ∧
    search_diagnosis_results mX "q" "namenode" 3 (2/5)
      = mX.search_knowledge "q" (some (match_knowledge_base "namenode")) 3 (2/5) :=
  ⟨(facade_dispatch mX "q" "ALL" 3 (2/5)).1 (by decide),
    (facade_dispatch mX "q" "namenode" 3 (2/5)).2 (by decide)⟩

/-! ### Registry-wide search (absent topic) -/

/-- C2: with no topic name, `search_knowledge` returns the concatenation of
the results of every registered collection, sorted ascending by distance and
truncated to `top_k`: there is a sorted permutation `s` of the concatenation
with the output equal to `s.take top_k`. -/
theorem search_knowledge_all_sorted (m : KnowledgeBaseManager) (q : String)
    (k : Nat) (t : ℚ) :
    ∃ s : List (Document × ℚ),
      s.Perm ((m.knowledge_bases.map (fun p => p.2.search q k t)).flatten) ∧
      s.Pairwise (fun a b => a.2 ≤ b.2) ∧
      m.search_knowledge q none k t = s.take k := by
  refine ⟨((m.knowledge_bases.map (fun p => p.2.search q k t)).flatten).mergeSort
    (fun a b => decide (a.2 ≤ b.2)), List.mergeSort_perm _ _, ?_, by rfl⟩
  have h := @List.sorted_mergeSort (Document × ℚ)
    (fun a b => decide (a.2 ≤ b.2))
    (fun a b c hab hbc => by
      simp only [decide_eq_true_eq] at *
      exact le_trans hab hbc)
    (fun a b => by
      simp only [Bool.or_eq_true, decide_eq_true_eq]
      exact le_total a.2 b.2)
    ((m.knowledge_bases.map (fun p => p.2.search q k t)).flatten)
  exact h.imp (fun hab => by simpa using hab)

/-! ### Adding documents and texts -/

/-- The vector store grows by exactly the given documents (also when the
list is empty, where `add_documents` is an early-returning no-op). -/
theorem add_documents_docs (kb : KnowledgeBase) (ds : List Document) :
    (kb.add_documents ds).vector_store.docs = kb.vector_store.docs ++ ds := by
  unfold KnowledgeBase.add_documents
  cases ds with
  | nil => simp
  | cons d ds => simp [KnowledgeBase.save, VectorStore.add_documents]

/-- Zipping a list with `length`-many copies of the empty mapping is the
same as pairing every element with the empty mapping. -/
theorem zip_replicate_nil_eq (texts : List String) :
    texts.zip (List.replicate texts.length ([] : List (String × String)))
      = texts.map (fun t => (t, ([] : List (String × String)))) := by
  induction texts with
  | nil => rfl
  | cons a as ih => simp [List.replicate_succ, ih]

/-- C8: `add_documents` is a no-op on the empty list (no state change, no
persist); on non-empty input it appends the documents to the index and then
persists synchronously (disk snapshot equals the new index contents);
`add_texts` builds one document per zipped (text, metadata) pair — with the
empty mapping when `metadatas` is omitted — and delegates to
`add_documents`. -/
theorem add_documents_add_texts_spec (kb : KnowledgeBase) :
    (kb.add_documents [] = kb) ∧
    (∀ ds : List Document, ds ≠ [] →
      (kb.add_documents ds).vector_store.docs = kb.vector_store.docs ++ ds ∧
      (kb.add_documents ds).saved_docs = kb.vector_store.docs ++ ds) ∧
    (∀ texts : List String,
      kb.add_texts texts none
        = kb.add_documents (texts.map (fun txt => ⟨txt, []⟩))) ∧
    (∀ (texts : List String) (ms : List (List (String × String))),
      kb.add_texts texts (some ms)
        = kb.add_documents ((texts.zip ms).map (fun p => ⟨p.1, p.2⟩))) := by
  refine ⟨by simp [KnowledgeBase.add_documents], fun ds hds => ?_, fun texts => ?_, ?_⟩
  · have hne : ds.isEmpty = false := by simp [hds]
    unfold KnowledgeBase.add_documents
    simp [hne, KnowledgeBase.save, VectorStore.add_documents]
  · cases texts with
    | nil => simp [KnowledgeBase.add_texts, KnowledgeBase.add_documents]
    | cons a as =>
      unfold KnowledgeBase.add_texts
      simp only [List.isEmpty_cons, if_false, Bool.false_eq_true]
      rw [zip_replicate_nil_eq]
      simp [List.map_map, Function.comp_def]
  · intro texts ms
    cases texts with
    | nil => simp [KnowledgeBase.add_texts, KnowledgeBase.add_documents]
    | cons a as =>
      unfold KnowledgeBase.add_texts
      simp

/-- Witness for C8 at a concrete collection. -/
theorem add_documents_add_texts_spec_witness :
    kbA.add_documents [] = kbA ∧
    (kbA.add_documents [docB]).saved_docs = kbA.vector_store.docs ++ [docB] ∧
    kbA.add_texts ["t1"] none = kbA.add_documents [⟨"t1", []⟩] := by
  have h := add_documents_add_texts_spec kbA
  exact ⟨h.1, (h.2.1 [docB] (by simp)).2, by simpa using h.2.2.1 ["t1"]⟩

/-- C9: with an explicit `metadatas` list of a different length, `add_texts`
silently adds exactly one document per `zip` pair — the shorter list
truncates the longer one, dropping the excess without error. -/
theorem add_texts_zip_truncation (kb : KnowledgeBase) (texts : List String)
    (ms : List (List (String × String))) :
    (texts ≠ [] → ms.length < texts.length →
      (kb.add_texts texts (some ms)).vector_store.docs
        = kb.vector_store.docs ++ ((texts.zip ms).map (fun p => ⟨p.1, p.2⟩)) ∧
      (texts.zip ms).length = ms.length) ∧
    (texts ≠ [] → texts.length < ms.length →
      (kb.add_texts texts (some ms)).vector_store.docs
        = kb.vector_store.docs ++ ((texts.zip ms).map (fun p => ⟨p.1, p.2⟩)) ∧
      (texts.zip ms).length = texts.length) := by
  have hdocs : (kb.add_texts texts (some ms)).vector_store.docs
      = kb.vector_store.docs ++ ((texts.zip ms).map (fun p => ⟨p.1, p.2⟩)) := by
    cases texts with
    | nil => simp [KnowledgeBase.add_texts]
    | cons a as =>
      unfold KnowledgeBase.add_texts
      simp only [List.isEmpty_cons, if_false, Bool.false_eq_true]
      exact add_documents_docs kb _
  constructor
  · intro _ hlt
    exact ⟨hdocs, by rw [List.length_zip texts ms]; exact min_eq_right hlt.le⟩
  · intro _ hlt
    exact ⟨hdocs, by rw [List.length_zip texts ms]; exact min_eq_left hlt.le⟩

/-- Witness for C9: two texts against one metadata mapping (second text
dropped), and one text against two mappings (second mapping dropped). -/
theorem add_texts_zip_truncation_witness :
    (kbA.add_texts ["a", "b"] (some [[("k", "v")]])).vector_store.docs
      = kbA.vector_store.docs ++ [⟨"a", [("k", "v")]⟩] ∧
    (kbA.add_texts ["a"] (some [[], [("k", "v")]])).vector_store.docs
      = kbA.vector_store.docs ++ [⟨"a", []⟩] := by
  have h1 := (add_texts_zip_truncation kbA ["a", "b"] [[("k", "v")]]).1
    (by simp) (by simp)
  have h2 := (add_texts_zip_truncation kbA ["a"] [[], [("k", "v")]]).2
    (by simp) (by simp)
  exact ⟨by simpa using h1.1, by simpa using h2.1⟩

/-! ### The single-topic path always hits a registered collection -/

/-- Registry search `search_knowledge` at a registered non-empty topic name delegates to
that collection. -/
theorem search_knowledge_registered (m : KnowledgeBaseManager) (q : String)
    (k : Nat) (t : ℚ) (name : String) (kb : KnowledgeBase) (hn : name ≠ "")
    (hl : m.knowledge_bases.lookup name = some kb) :
    m.search_knowledge q (some name) k t = kb.search q k t := by
  unfold KnowledgeBaseManager.search_knowledge
  simp [hn, hl]

/-- The mapping `match_knowledge_base` only ever produces one of four fixed names. -/
theorem match_knowledge_base_mem (e : String) :
    match_knowledge_base e = "NameNodeExpert" ∨ match_knowledge_base e = "DataNodeExpert" ∨
    match_knowledge_base e = "YARNExpert" ∨ match_knowledge_base e = "HistoryCases" := by
  cases h1 : strContains (strLower e) "namenode" || strContains (strLower e) "nn" <;>
    cases h2 : strContains (strLower e) "datanode" || strContains (strLower e) "dn" <;>
      cases h3 : strContains (strLower e) "yarn" <;>
        simp [match_knowledge_base, h1, h2, h3]

/-- C10: for every non-empty label other than (case-insensitive) "all",
the single-topic path of the facade resolves to one of the four
`match_knowledge_base` outputs, each of which the registry constructed
eagerly at initialization — so the unknown-topic warning branch is
unreachable from the public entry point and the search hits a registered
collection. -/
theorem unknown_topic_unreachable (mk : String → KnowledgeBase) (e q : String)
    (k : Nat) (t : ℚ) (_h1 : e ≠ "") (h2 : strLower e ≠ "all") :
    (match_knowledge_base e = "NameNodeExpert" ∨ match_knowledge_base e = "DataNodeExpert" ∨
      match_knowledge_base e = "YARNExpert" ∨ match_knowledge_base e = "HistoryCases") ∧
    ∃ kb, (init_manager mk).knowledge_bases.lookup (match_knowledge_base e) = some kb ∧
      search_diagnosis_results (init_manager mk) q e k t = kb.search q k t := by
  have hmem := match_knowledge_base_mem e
  refine ⟨hmem, ?_⟩
  have hres : search_diagnosis_results (init_manager mk) q e k t
      = (init_manager mk).search_knowledge q (some (match_knowledge_base e)) k t := by
    unfold search_diagnosis_results
    rw [if_neg h2]
  rcases hmem with h | h | h | h <;>
    exact ⟨mk (match_knowledge_base e), (by rw [h]; rfl),
      hres.trans (search_knowledge_registered _ q k t _ _
        (by rw [h]; decide) (by rw [h]; rfl))⟩

/-- Witness for C10 at the label `"dn-worker"`. -/
theorem unknown_topic_unreachable_witness :
    ∃ kb, (init_manager (fun n => ⟨n, ⟨[], fun _ _ => .ok []⟩, []⟩)).knowledge_bases.lookup
        (match_knowledge_base "dn-worker") = some kb ∧
      search_diagnosis_results (init_manager (fun n => ⟨n, ⟨[], fun _ _ => .ok []⟩, []⟩))
        "q" "dn-worker" 3 (2/5) = kb.search "q" 3 (2/5) :=
  (unknown_topic_unreachable (fun n => ⟨n, ⟨[], fun _ _ => .ok []⟩, []⟩)
    "dn-worker" "q" 3 (2/5) (by decide) (by decide)).2

/-! ### The facade rendering -/

/-- Unfolding `String.join` one element at a time. -/
theorem str_join_cons (a : String) (l : List String) :
    String.join (a :: l) = a ++ String.join l := by
  have hfold : ∀ (l : List String) (s : String),
      l.foldl (fun r u => r ++ u) s = s ++ l.foldl (fun r u => r ++ u) "" := by
    intro l
    induction l with
    | nil => intro s; simp
    | cons x xs ih =>
      intro s
      simp only [List.foldl_cons]
      rw [ih (s ++ x), ih ("" ++ x), String.empty_append, String.append_assoc]
  unfold String.join
  simp only [List.foldl_cons]
  rw [hfold l ("" ++ a), String.empty_append]

/-- The loop body renders each result exactly as the spec-level
`renderItemSpec`: the `if doc.metadata:` guard is redundant, since on an
empty mapping both optional lines are already absent. -/
theorem renderResult_eq_spec (idx : Nat) (doc : Document) (score : ℚ) :
    renderResult idx doc score = renderItemSpec idx doc score := by
  unfold renderResult renderItemSpec
  cases hmd : doc.metadata with
  | nil => simp [List.lookup]
  | cons p l => simp [hmd, String.append_assoc]

/-- The formatting loop with counter `i` equals the spec-level enumeration
starting at `i`. -/
theorem renderLoop_eq_spec (rs : List (Document × ℚ)) (i : Nat) :
    renderLoop i rs
      = String.join ((rs.enumFrom i).map (fun p => renderItemSpec p.1 p.2.1 p.2.2)) := by
  induction rs generalizing i with
  | nil => rfl
  | cons hd tl ih =>
    cases hd with
    | mk doc score =>
      simp only [renderLoop, List.enumFrom_cons, List.map_cons, str_join_cons,
        renderResult_eq_spec, ih]

/-- The non-empty rendering starts with the character `找`, the fixed
no-results sentence with `未`, so the two can never coincide. -/
theorem render_ne_noResults (s1 s2 s3 q : String) :
    ("找到 " ++ s1 ++ s2 ++ s3) ≠ noResultsMsg q := by
  intro h
  have hd := congrArg String.data h
  simp only [noResultsMsg, String.data_append] at hd
  simp only [List.cons_append, List.append_assoc, List.cons.injEq] at hd
  exact absurd hd.1 (by decide)

/-- C6: the facade returns the fixed no-results sentence exactly when the
underlying search is empty; otherwise it returns the count header followed
by, for each result in order, its 1-based index, the displayed similarity
`1 - distance` (not clamped), the optional source and desc lines, and the
raw text. -/
theorem facade_render_spec (m : KnowledgeBaseManager) (q e : String) (k : Nat) (t : ℚ) :
    (search_diagnosis_knowledge m q e k t = noResultsMsg q ↔
      search_diagnosis_results m q e k t = []) ∧
    (search_diagnosis_results m q e k t ≠ [] →
      search_diagnosis_knowledge m q e k t
        = renderSpec (search_diagnosis_results m q e k t)) := by
  have hmain : search_diagnosis_knowledge m q e k t =
      if (search_diagnosis_results m q e k t).isEmpty then noResultsMsg q
      else "找到 " ++ toString (search_diagnosis_results m q e k t).length
        ++ " 条相关知识：\n\n" ++ renderLoop 1 (search_diagnosis_results m q e k t) := rfl
  rw [hmain]
  cases hrs : search_diagnosis_results m q e k t with
  | nil => simp
  | cons hd tl =>
    rw [if_neg (by simp)]
    refine ⟨⟨fun h => absurd h (render_ne_noResults _ _ _ _), fun h => absurd h (by simp)⟩,
      fun _ => ?_⟩
    unfold renderSpec
    rw [renderLoop_eq_spec]

/-- Witness for C6 at a concrete registry and query with one hit. -/
theorem facade_render_spec_witness :
    search_diagnosis_results mX "q" "namenode" 3 (2/5) ≠ [] ∧
    search_diagnosis_knowledge mX "q" "namenode" 3 (2/5)
      = renderSpec (search_diagnosis_results mX "q" "namenode" 3 (2/5)) := by
  have h2 : search_diagnosis_results mX "q" "namenode" 3 (2/5)
      = kbA.search "q" 3 (2/5) := rfl
  have h3 : kbA.search "q" 3 (2/5) = [(docA, 2)] := by
    norm_num [kbA, KnowledgeBase.search, List.filter]
  have hne : search_diagnosis_results mX "q" "namenode" 3 (2/5) ≠ [] := by
    rw [h2, h3]
    simp
  exact ⟨hne, (facade_render_spec mX "q" "namenode" 3 (2/5)).2 hne⟩

end KB
